import Mathlib

/-!
Verification of the configuration-to-theme resolution and validation pipeline
of the gruvbox-material theme repository.

The validator (`src/test/helpers/theme-validator.ts`) operates on parsed JSON
documents, so we shallowly embed JavaScript runtime values as the inductive
type `JSValue`, together with the pieces of JavaScript semantics the code
relies on: `typeof`, truthiness, the `in` operator, property access (which
throws on `null`/`undefined` receivers, modelled with `Except`), optional
chaining, `Object.entries`/`Object.keys`, `Array.isArray`, strict equality
against a string literal, and string coercion as performed by template
literals.
-/

/-- A JavaScript runtime value, as produced by parsing JSON (plus `undefined`). -/
inductive JSValue where
  | vUndefined : JSValue
  | vNull : JSValue
  | vBool : Bool → JSValue
  | vNum : Int → JSValue
  | vStr : String → JSValue
  | vArr : List JSValue → JSValue
  | vObj : List (String × JSValue) → JSValue

/-- JavaScript `typeof`. Note `typeof null === "object"` and arrays are objects. -/
def jsTypeof : JSValue → String
  | .vUndefined => "undefined"
  | .vNull => "object"
  | .vBool _ => "boolean"
  | .vNum _ => "number"
  | .vStr _ => "string"
  | .vArr _ => "object"
  | .vObj _ => "object"

/-- JavaScript truthiness. Falsy values: `undefined`, `null`, `false`, `0`, `""`. -/
def jsTruthy : JSValue → Bool
  | .vUndefined => false
  | .vNull => false
  | .vBool b => b
  | .vNum n => n != 0
  | .vStr s => !s.isEmpty
  | .vArr _ => true
  | .vObj _ => true

/-- First-match lookup of a key in an object's field list. -/
def lookupField (fields : List (String × JSValue)) (key : String) : Option JSValue :=
  match fields with
  | [] => none
  | (k, v) :: rest => if k == key then some v else lookupField rest key

/-- The JavaScript `in` operator on an object's field list. -/
def jsIn (fields : List (String × JSValue)) (key : String) : Bool :=
  (lookupField fields key).isSome

/-- Property access `v[key]` where the receiver is known to be non-nullish:
primitives yield `undefined`, objects look up the key. -/
def jsGetPropNN : JSValue → String → JSValue
  | .vObj fields, key => (lookupField fields key).getD .vUndefined
  | _, _ => .vUndefined

/-- Property access `v[key]`: throws a `TypeError` on `null`/`undefined`
receivers, otherwise behaves like `jsGetPropNN`. -/
def jsGetProp : JSValue → String → Except String JSValue
  | .vNull, key => .error ("TypeError: Cannot read properties of null (reading " ++ key ++ ")")
  | .vUndefined, key => .error ("TypeError: Cannot read properties of undefined (reading " ++ key ++ ")")
  | v, key => .ok (jsGetPropNN v key)

/-- Optional chaining `v?.[key]`: nullish receivers yield `undefined`. -/
def jsOptChain (v : JSValue) (key : String) : JSValue :=
  match v with
  | .vNull => .vUndefined
  | .vUndefined => .vUndefined
  | _ => jsGetPropNN v key

/-- JavaScript strict equality `v === lit` against a string literal. -/
def jsEqStr : JSValue → String → Bool
  | .vStr s, t => s == t
  | _, _ => false

/-- `Array.isArray`. -/
def jsIsArray : JSValue → Bool
  | .vArr _ => true
  | _ => false

/-- `Object.entries`, for the receivers reachable in this code base. -/
def jsEntries : JSValue → List (String × JSValue)
  | .vObj fields => fields
  | .vArr xs => (xs.enum.map (fun ix => (toString ix.1, ix.2)))
  | .vStr s => (s.data.enum.map (fun ic => (toString ic.1, .vStr (String.mk [ic.2]))))
  | _ => []

mutual

/-- String coercion as performed by template literals (`String(v)`).
Arrays join their elements with commas, nullish elements becoming empty. -/
def jsToString : JSValue → String
  | .vUndefined => "undefined"
  | .vNull => "null"
  | .vBool b => if b then "true" else "false"
  | .vNum n => toString n
  | .vStr s => s
  | .vArr xs => String.intercalate "," (jsToStringElems xs)
  | .vObj _ => "[object Object]"

/-- Element-wise stringification used by `Array.prototype.toString`. -/
def jsToStringElems : List JSValue → List String
  | [] => []
  | .vNull :: xs => "" :: jsToStringElems xs
  | .vUndefined :: xs => "" :: jsToStringElems xs
  | x :: xs => jsToString x :: jsToStringElems xs

end

/-- The theme variant, the TypeScript union type `"dark" | "light"`. -/
inductive Variant where
  | dark : Variant
  | light : Variant
deriving DecidableEq, Repr

/-- The string a `Variant` denotes. -/
def variantStr : Variant → String
  | .dark => "dark"
  | .light => "light"

/-- Result of theme validation (interface `ThemeValidationResult`). -/
structure ThemeValidationResult where
  isValid : Bool
  errors : List String
  warnings : List String
deriving DecidableEq, Repr

/-- `REQUIRED_THEME_PROPERTIES` from `src/test/helpers/constants.ts`. -/
def REQUIRED_THEME_PROPERTIES : List String :=
  ["name", "type", "semanticHighlighting", "semanticTokenColors", "colors", "tokenColors"]

/-- A hexadecimal digit, upper or lower case (the regex class `[0-9a-f]` under the `i` flag). -/
def isHexDigitCI (c : Char) : Bool :=
  c.isDigit || ( 'a' ≤ c && c ≤ 'f' ) || ( 'A' ≤ c && c ≤ 'F' )

/-- Anchored match of the regex `^#([0-9a-f]{3}|[0-9a-f]{6}|[0-9a-f]{8})$/i`
from `isValidHexColor`. -/
def hexColorMatches (s : String) : Bool :=
  match s.data with
  | [] => false
  | c :: rest =>
    c == '#' &&
      (rest.length == 3 || rest.length == 6 || rest.length == 8) &&
      rest.all isHexDigitCI

/-- `isValidHexColor` from `theme-validator.ts`: a runtime `typeof` check
rejects non-strings, then the hex-color regex is tested. -/
def isValidHexColor (value : JSValue) : Bool :=
  match value with
  | .vStr s => hexColorMatches s
  | _ => false

/-- `validateColorFormat` from `theme-validator.ts`. -/
def validateColorFormat (color : JSValue) : Bool :=
  isValidHexColor color

/-- The error message for a missing required property. -/
def missingPropMsg (prop : String) : String :=
  "Missing required property: " ++ prop

/-- The error message for an invalid `type` value. -/
def invalidTypeMsg (t : JSValue) : String :=
  "Invalid type value: expected dark or light, got " ++ jsToString t

/-- The error message for an invalid `semanticHighlighting` value. -/
def invalidSemanticHighlightingMsg (v : JSValue) : String :=
  "Invalid semanticHighlighting value: expected boolean, got " ++ jsTypeof v

/-- The error message for an invalid `colors` value. -/
def invalidColorsMsg : String :=
  "Invalid colors value: expected an object"

/-- The error message for an invalid `tokenColors` value. -/
def invalidTokenColorsMsg : String :=
  "Invalid tokenColors value: expected an array"

/-- The error message for an invalid `semanticTokenColors` value. -/
def invalidSemanticTokenColorsMsg : String :=
  "Invalid semanticTokenColors value: expected an object"

/-- The error message for the non-object root short-circuit. -/
def nonObjectRootMsg : String :=
  "Theme must be a non-null object"

/-- The required-properties loop of `validateThemeStructure`: one pass over
`REQUIRED_THEME_PROPERTIES` pushing a message for each key the `in` operator
does not find. -/
def missingPart (fields : List (String × JSValue)) (errs : List String) : List String :=
  REQUIRED_THEME_PROPERTIES.foldl
    (fun acc prop => if jsIn fields prop then acc else acc ++ [missingPropMsg prop]) errs

/-- The `type` check of `validateThemeStructure`: when present, it must be
strictly equal to "dark" or "light". -/
def typePart (fields : List (String × JSValue)) (errs : List String) : List String :=
  match lookupField fields "type" with
  | none => errs
  | some t =>
    if !(jsEqStr t "dark") && !(jsEqStr t "light") then errs ++ [invalidTypeMsg t] else errs

/-- The `semanticHighlighting` check of `validateThemeStructure`: when
present, its `typeof` must be "boolean". -/
def shPart (fields : List (String × JSValue)) (errs : List String) : List String :=
  match lookupField fields "semanticHighlighting" with
  | none => errs
  | some v =>
    if !(jsTypeof v == "boolean") then errs ++ [invalidSemanticHighlightingMsg v] else errs

/-- The `colors` check of `validateThemeStructure`: when present, it must be
a non-null, non-array object. -/
def colorsPart (fields : List (String × JSValue)) (errs : List String) : List String :=
  match lookupField fields "colors" with
  | none => errs
  | some c =>
    if !(jsTypeof c == "object") || c matches .vNull || jsIsArray c then
      errs ++ [invalidColorsMsg]
    else errs

/-- The `tokenColors` check of `validateThemeStructure`: when present, it
must be an array. -/
def tokenColorsPart (fields : List (String × JSValue)) (errs : List String) : List String :=
  match lookupField fields "tokenColors" with
  | none => errs
  | some t => if !(jsIsArray t) then errs ++ [invalidTokenColorsMsg] else errs

/-- The `semanticTokenColors` check of `validateThemeStructure`: when
present, it must be a non-null, non-array object. -/
def stcPart (fields : List (String × JSValue)) (errs : List String) : List String :=
  match lookupField fields "semanticTokenColors" with
  | none => errs
  | some c =>
    if !(jsTypeof c == "object") || c matches .vNull || jsIsArray c then
      errs ++ [invalidSemanticTokenColorsMsg]
    else errs

/-- The body of `validateThemeStructure` after the root check: the checks
above run in source order, each pushing onto the accumulated error list. -/
def structureChecks (fields : List (String × JSValue)) : List String :=
  stcPart fields
    (tokenColorsPart fields
      (colorsPart fields
        (shPart fields
          (typePart fields
            (missingPart fields [])))))

/-- The field list a value exposes to the `in` operator once it has passed the
`typeof theme === "object" && theme !== null` root test: objects expose their
fields; arrays pass the root test but have none of the six theme keys. -/
def objFields : JSValue → Option (List (String × JSValue))
  | .vObj fields => some fields
  | .vArr _ => some []
  | _ => none

/-- `validateThemeStructure` from `theme-validator.ts`. -/
def validateThemeStructure (theme : JSValue) : ThemeValidationResult :=
  match objFields theme with
  | none => { isValid := false, errors := [nonObjectRootMsg], warnings := [] }
  | some fields =>
    let errors := structureChecks fields
    { isValid := errors.isEmpty, errors := errors, warnings := [] }

/-- The error message for an invalid entry of the `colors` object. -/
def colorEntryMsg (key : String) (value : JSValue) : String :=
  "Invalid color format for " ++ key ++ ": " ++ jsToString value

/-- The error message for an invalid `settings.foreground` of a token color
rule; the rule is identified by `rule.name || fallback-to-index`. -/
def foregroundMsg (rule : JSValue) (index : Nat) (fg : JSValue) : String :=
  let nameV := jsGetPropNN rule "name"
  let ruleName := if jsTruthy nameV then jsToString nameV else "rule at index " ++ toString index
  "Invalid foreground color format in tokenColors " ++ ruleName ++ ": " ++ jsToString fg

/-- The `theme.tokenColors.forEach((rule, index) => ...)` loop of
`validateThemeColors`: each iteration reads `rule.settings` (throwing on a
nullish rule), optionally chains to `foreground`, and pushes an error when
the foreground is truthy and fails the hex check. -/
def tokenColorsLoop : List JSValue → Nat → Except String (List String)
  | [], _ => .ok []
  | rule :: rest, index =>
    match jsGetProp rule "settings" with
    | .error e => .error e
    | .ok settings =>
      let fg := jsOptChain settings "foreground"
      let here := if jsTruthy fg && !(isValidHexColor fg) then [foregroundMsg rule index fg] else []
      match tokenColorsLoop rest (index + 1) with
      | .error e => .error e
      | .ok restErrs => .ok (here ++ restErrs)

/-- `validateThemeColors` from `theme-validator.ts`: the `colors` entries are
scanned unconditionally when `theme.colors` is truthy, then every rule of a
truthy `theme.tokenColors` is scanned (a truthy non-array would make
`.forEach` throw). -/
def validateThemeColors (theme : JSValue) : Except String ThemeValidationResult :=
  match jsGetProp theme "colors" with
  | .error e => .error e
  | .ok colorsV =>
    let colorErrs :=
      if jsTruthy colorsV then
        (jsEntries colorsV).filterMap
          (fun kv => if isValidHexColor kv.2 then none else some (colorEntryMsg kv.1 kv.2))
      else []
    match jsGetProp theme "tokenColors" with
    | .error e => .error e
    | .ok tokenColorsV =>
      let tokenErrsE : Except String (List String) :=
        if jsTruthy tokenColorsV then
          match tokenColorsV with
          | .vArr rules => tokenColorsLoop rules 0
          | _ => .error "TypeError: theme.tokenColors.forEach is not a function"
        else .ok []
      match tokenErrsE with
      | .error e => .error e
      | .ok tokenErrs =>
        let errors := colorErrs ++ tokenErrs
        .ok { isValid := errors.isEmpty, errors := errors, warnings := [] }

/-- `String.prototype.toLowerCase`, character by character. -/
def strToLower (s : String) : String :=
  String.mk (s.data.map Char.toLower)

/-- Whether `pat` occurs at the head of `l`. -/
def listStartsWith : List Char → List Char → Bool
  | _, [] => true
  | [], _ :: _ => false
  | c :: cs, p :: ps => c == p && listStartsWith cs ps

/-- Whether `pat` occurs contiguously anywhere in `l`. -/
def listContainsSub (l pat : List Char) : Bool :=
  match l with
  | [] => pat.isEmpty
  | _ :: rest => listStartsWith l pat || listContainsSub rest pat

/-- Substring test, `String.prototype.includes`. -/
def strIncludes (s pat : String) : Bool :=
  listContainsSub s.data pat.data

/-- `validateThemeName` from `theme-validator.ts`: `false` when `theme.name`
is falsy or not a string, otherwise lower-cases it and tests containment of
the variant word. -/
def validateThemeName (theme : JSValue) (expectedVariant : Variant) : Except String Bool :=
  match jsGetProp theme "name" with
  | .error e => .error e
  | .ok n =>
    match n with
    | .vStr s =>
      if s.isEmpty then .ok false
      else
        let themeName := strToLower s
        match expectedVariant with
        | .dark => .ok (strIncludes themeName "dark")
        | .light => .ok (strIncludes themeName "light")
    | _ => .ok false

/-- The warning message for a theme name not containing the variant word. -/
def nameWarningMsg (theme : JSValue) (expectedVariant : Variant) : String :=
  "Theme name " ++ jsToString (jsGetPropNN theme "name") ++
    " does not contain expected variant " ++ variantStr expectedVariant

/-- The error message for a theme type differing from the expected variant. -/
def typeMismatchMsg (typeV : JSValue) (expectedVariant : Variant) : String :=
  "Theme type " ++ jsToString typeV ++ " does not match expected variant " ++
    variantStr expectedVariant

/-- `validateCompleteTheme` from `theme-validator.ts`: structural check first
with an early return on failure, then the color check, the name check whose
failure only appends a warning, and the `type !== expectedVariant` check
whose failure appends an error. -/
def validateCompleteTheme (theme : JSValue) (expectedVariant : Variant) :
    Except String ThemeValidationResult :=
  let structureResult := validateThemeStructure theme
  if !structureResult.isValid then
    .ok { isValid := false, errors := structureResult.errors, warnings := structureResult.warnings }
  else
    match validateThemeColors theme with
    | .error e => .error e
    | .ok colorResult =>
      match validateThemeName theme expectedVariant with
      | .error e => .error e
      | .ok nameOk =>
        match jsGetProp theme "type" with
        | .error e => .error e
        | .ok typeV =>
          let allWarnings := structureResult.warnings ++ colorResult.warnings ++
            (if nameOk then [] else [nameWarningMsg theme expectedVariant])
          let allErrors := structureResult.errors ++ colorResult.errors ++
            (if jsEqStr typeV (variantStr expectedVariant) then []
             else [typeMismatchMsg typeV expectedVariant])
          .ok { isValid := allErrors.isEmpty, errors := allErrors, warnings := allWarnings }

/-- Contrast options (`CONTRAST_OPTIONS` in `constants.ts`). -/
inductive Contrast where
  | soft : Contrast
  | medium : Contrast
  | hard : Contrast
deriving DecidableEq, Repr

/-- Palette options (`PALETTE_OPTIONS` in `constants.ts`). -/
inductive PaletteOption where
  | material : PaletteOption
  | mix : PaletteOption
  | original : PaletteOption
deriving DecidableEq, Repr

/-- The resolved `Configuration` record (interface `Configuration`): the
enumerated contrast and palette selectors, plus the remaining string-valued
selectors and the four boolean toggles. -/
structure Configuration where
  darkContrast : Contrast
  lightContrast : Contrast
  darkWorkbench : String
  lightWorkbench : String
  darkCursor : String
  lightCursor : String
  darkSelection : String
  lightSelection : String
  darkPalette : PaletteOption
  lightPalette : PaletteOption
  colorfulSyntax : Bool
  italicKeywords : Bool
  italicComments : Bool
  diagnosticTextBackgroundOpacity : String
  highContrast : Bool
deriving DecidableEq, Repr

/-- `CONFIGURATION_DEFAULTS` from `constants.ts`. -/
def CONFIGURATION_DEFAULTS : Configuration where
  darkContrast := .medium
  lightContrast := .medium
  darkWorkbench := "material"
  lightWorkbench := "material"
  darkCursor := "white"
  lightCursor := "black"
  darkSelection := "grey"
  lightSelection := "grey"
  darkPalette := .material
  lightPalette := .material
  colorfulSyntax := false
  italicKeywords := false
  italicComments := true
  diagnosticTextBackgroundOpacity := "0%"
  highContrast := false

/-- `Partial<Configuration>`: each field independently absent (`none`) or
overridden (`some`). -/
structure PartialConfiguration where
  darkContrast : Option Contrast := none
  lightContrast : Option Contrast := none
  darkWorkbench : Option String := none
  lightWorkbench : Option String := none
  darkCursor : Option String := none
  lightCursor : Option String := none
  darkSelection : Option String := none
  lightSelection : Option String := none
  darkPalette : Option PaletteOption := none
  lightPalette : Option PaletteOption := none
  colorfulSyntax : Option Bool := none
  italicKeywords : Option Bool := none
  italicComments : Option Bool := none
  diagnosticTextBackgroundOpacity : Option String := none
  highContrast : Option Bool := none
deriving DecidableEq, Repr

/-- The empty overrides object (calling `createConfiguration()` with the
optional argument omitted). -/
def emptyOverrides : PartialConfiguration where

/-- `createConfiguration` from `src/test/helpers/fixtures.ts`: the object
spread over `CONFIGURATION_DEFAULTS`, so each field present in the overrides
wins and each absent field keeps its default. -/
def createConfiguration (overrides : PartialConfiguration) : Configuration where
  darkContrast := overrides.darkContrast.getD CONFIGURATION_DEFAULTS.darkContrast
  lightContrast := overrides.lightContrast.getD CONFIGURATION_DEFAULTS.lightContrast
  darkWorkbench := overrides.darkWorkbench.getD CONFIGURATION_DEFAULTS.darkWorkbench
  lightWorkbench := overrides.lightWorkbench.getD CONFIGURATION_DEFAULTS.lightWorkbench
  darkCursor := overrides.darkCursor.getD CONFIGURATION_DEFAULTS.darkCursor
  lightCursor := overrides.lightCursor.getD CONFIGURATION_DEFAULTS.lightCursor
  darkSelection := overrides.darkSelection.getD CONFIGURATION_DEFAULTS.darkSelection
  lightSelection := overrides.lightSelection.getD CONFIGURATION_DEFAULTS.lightSelection
  darkPalette := overrides.darkPalette.getD CONFIGURATION_DEFAULTS.darkPalette
  lightPalette := overrides.lightPalette.getD CONFIGURATION_DEFAULTS.lightPalette
  colorfulSyntax := overrides.colorfulSyntax.getD CONFIGURATION_DEFAULTS.colorfulSyntax
  italicKeywords := overrides.italicKeywords.getD CONFIGURATION_DEFAULTS.italicKeywords
  italicComments := overrides.italicComments.getD CONFIGURATION_DEFAULTS.italicComments
  diagnosticTextBackgroundOpacity :=
    overrides.diagnosticTextBackgroundOpacity.getD CONFIGURATION_DEFAULTS.diagnosticTextBackgroundOpacity
  highContrast := overrides.highContrast.getD CONFIGURATION_DEFAULTS.highContrast

/-- The `Palette` interface: the color names listed by
`REQUIRED_PALETTE_COLORS` in `constants.ts`. -/
structure Palette where
  bg0 : String
  bg1 : String
  bg : String
  bg2 : String
  bg3 : String
  bg4 : String
  bg5 : String
  bg6 : String
  bg7 : String
  bg8 : String
  bg9 : String
  grey0 : String
  grey1 : String
  grey2 : String
  fg0 : String
  fg : String
  fg1 : String
  red : String
  orange : String
  yellow : String
  green : String
  aqua : String
  blue : String
  purple : String
  dimRed : String
  dimOrange : String
  dimYellow : String
  dimGreen : String
  dimAqua : String
  dimBlue : String
  dimPurple : String
  shadow : String
deriving DecidableEq, Repr

/-- A background family: the eleven background shades plus the three greys
and the shadow color, selected by (variant, contrast). -/
structure BgFamily where
  bg0 : String
  bg1 : String
  bg : String
  bg2 : String
  bg3 : String
  bg4 : String
  bg5 : String
  bg6 : String
  bg7 : String
  bg8 : String
  bg9 : String
  grey0 : String
  grey1 : String
  grey2 : String
  shadow : String

/-- A foreground family: the three foreground shades, the seven accents and
their seven dimmed variants, selected by (variant, palette option). -/
structure FgFamily where
  fg0 : String
  fg : String
  fg1 : String
  red : String
  orange : String
  yellow : String
  green : String
  aqua : String
  blue : String
  purple : String
  dimRed : String
  dimOrange : String
  dimYellow : String
  dimGreen : String
  dimAqua : String
  dimBlue : String
  dimPurple : String

/-- Modelled from the spec: the static background tables of the palette
resolver (`src/palette.ts`, not under `src/` here) keyed by contrast for the
dark variant — "pick a base color table by (variant, contrast, ...)". -/
def darkBgTable : Contrast → BgFamily
  | .soft =>
    { bg0 := "#32302f", bg1 := "#3c3836", bg := "#45403d", bg2 := "#504945"
      bg3 := "#5a524c", bg4 := "#665c54", bg5 := "#7c6f64", bg6 := "#928374"
      bg7 := "#a89984", bg8 := "#bdae93", bg9 := "#d5c4a1"
      grey0 := "#7c6f64", grey1 := "#928374", grey2 := "#a89984", shadow := "#000000" }
  | .medium =>
    { bg0 := "#282828", bg1 := "#32302f", bg := "#3c3836", bg2 := "#45403d"
      bg3 := "#504945", bg4 := "#5a524c", bg5 := "#665c54", bg6 := "#7c6f64"
      bg7 := "#928374", bg8 := "#a89984", bg9 := "#bdae93"
      grey0 := "#7c6f64", grey1 := "#928374", grey2 := "#a89984", shadow := "#000000" }
  | .hard =>
    { bg0 := "#1d2021", bg1 := "#282828", bg := "#32302f", bg2 := "#3c3836"
      bg3 := "#45403d", bg4 := "#504945", bg5 := "#5a524c", bg6 := "#665c54"
      bg7 := "#7c6f64", bg8 := "#928374", bg9 := "#a89984"
      grey0 := "#7c6f64", grey1 := "#928374", grey2 := "#a89984", shadow := "#000000" }

/-- Modelled from the spec: the static background tables of the palette
resolver for the light variant. -/
def lightBgTable : Contrast → BgFamily
  | .soft =>
    { bg0 := "#f2e5bc", bg1 := "#eee0b7", bg := "#ebdbb2", bg2 := "#e6d5ae"
      bg3 := "#ddccab", bg4 := "#d5c4a1", bg5 := "#bdae93", bg6 := "#a89984"
      bg7 := "#928374", bg8 := "#7c6f64", bg9 := "#665c54"
      grey0 := "#a89984", grey1 := "#928374", grey2 := "#7c6f64", shadow := "#3c3836" }
  | .medium =>
    { bg0 := "#fbf1c7", bg1 := "#f4e8be", bg := "#f2e5bc", bg2 := "#eee0b7"
      bg3 := "#ebdbb2", bg4 := "#e6d5ae", bg5 := "#d5c4a1", bg6 := "#bdae93"
      bg7 := "#a89984", bg8 := "#928374", bg9 := "#7c6f64"
      grey0 := "#a89984", grey1 := "#928374", grey2 := "#7c6f64", shadow := "#3c3836" }
  | .hard =>
    { bg0 := "#f9f5d7", bg1 := "#fbf1c7", bg := "#f4e8be", bg2 := "#f2e5bc"
      bg3 := "#eee0b7", bg4 := "#ebdbb2", bg5 := "#e6d5ae", bg6 := "#d5c4a1"
      bg7 := "#bdae93", bg8 := "#a89984", bg9 := "#928374"
      grey0 := "#a89984", grey1 := "#928374", grey2 := "#7c6f64", shadow := "#3c3836" }

/-- Modelled from the spec: the static foreground tables of the palette
resolver keyed by palette option for the dark variant — "six static
foreground tables (variant x paletteOption)". -/
def darkFgTable : PaletteOption → FgFamily
  | .material =>
    { fg0 := "#e2cca9", fg := "#d4be98", fg1 := "#c5b18d"
      red := "#ea6962", orange := "#e78a4e", yellow := "#d8a657", green := "#a9b665"
      aqua := "#89b482", blue := "#7daea3", purple := "#d3869b"
      dimRed := "#b85651", dimOrange := "#bd6f3e", dimYellow := "#c18f41"
      dimGreen := "#8f9a52", dimAqua := "#72966c", dimBlue := "#68948a", dimPurple := "#ab6c7d" }
  | .mix =>
    { fg0 := "#e9e0d2", fg := "#dfc09f", fg1 := "#cdb693"
      red := "#f2594b", orange := "#f28534", yellow := "#e9b143", green := "#b0b846"
      aqua := "#8bba7f", blue := "#80aa9e", purple := "#d3869b"
      dimRed := "#c14a4a", dimOrange := "#c35e0a", dimYellow := "#b47109"
      dimGreen := "#6c782e", dimAqua := "#4c7a5d", dimBlue := "#45707a", dimPurple := "#945e80" }
  | .original =>
    { fg0 := "#fbf1c7", fg := "#ebdbb2", fg1 := "#d5c4a1"
      red := "#fb4934", orange := "#fe8019", yellow := "#fabd2f", green := "#b8bb26"
      aqua := "#8ec07c", blue := "#83a598", purple := "#d3869b"
      dimRed := "#cc241d", dimOrange := "#d65d0e", dimYellow := "#d79921"
      dimGreen := "#98971a", dimAqua := "#689d6a", dimBlue := "#458588", dimPurple := "#b16286" }

/-- Modelled from the spec: the static foreground tables of the palette
resolver for the light variant. -/
def lightFgTable : PaletteOption → FgFamily
  | .material =>
    { fg0 := "#514036", fg := "#654735", fg1 := "#755f4c"
      red := "#c14a4a", orange := "#c35e0a", yellow := "#b47109", green := "#6c782e"
      aqua := "#4c7a5d", blue := "#45707a", purple := "#945e80"
      dimRed := "#ea6962", dimOrange := "#e78a4e", dimYellow := "#d8a657"
      dimGreen := "#a9b665", dimAqua := "#89b482", dimBlue := "#7daea3", dimPurple := "#d3869b" }
  | .mix =>
    { fg0 := "#574838", fg := "#5f5750", fg1 := "#6f6456"
      red := "#af2528", orange := "#b94c07", yellow := "#a96b2c", green := "#72761e"
      aqua := "#477a5b", blue := "#266b79", purple := "#924f79"
      dimRed := "#c9444a", dimOrange := "#c96f2f", dimYellow := "#bb8054"
      dimGreen := "#87a060", dimAqua := "#6a9d72", dimBlue := "#5a93a2", dimPurple := "#ab7287" }
  | .original =>
    { fg0 := "#282828", fg := "#3c3836", fg1 := "#504945"
      red := "#9d0006", orange := "#af3a03", yellow := "#b57614", green := "#79740e"
      aqua := "#427b58", blue := "#076678", purple := "#8f3f71"
      dimRed := "#cc241d", dimOrange := "#d65d0e", dimYellow := "#d79921"
      dimGreen := "#98971a", dimAqua := "#689d6a", dimBlue := "#458588", dimPurple := "#b16286" }

/-- The contrast selector the resolver reads for a variant. -/
def variantContrast (config : Configuration) : Variant → Contrast
  | .dark => config.darkContrast
  | .light => config.lightContrast

/-- The palette-option selector the resolver reads for a variant. -/
def variantPalette (config : Configuration) : Variant → PaletteOption
  | .dark => config.darkPalette
  | .light => config.lightPalette

/-- Assembly of a `Palette` from a background and a foreground family. -/
def mergeFamilies (b : BgFamily) (f : FgFamily) : Palette where
  bg0 := b.bg0
  bg1 := b.bg1
  bg := b.bg
  bg2 := b.bg2
  bg3 := b.bg3
  bg4 := b.bg4
  bg5 := b.bg5
  bg6 := b.bg6
  bg7 := b.bg7
  bg8 := b.bg8
  bg9 := b.bg9
  grey0 := b.grey0
  grey1 := b.grey1
  grey2 := b.grey2
  fg0 := f.fg0
  fg := f.fg
  fg1 := f.fg1
  red := f.red
  orange := f.orange
  yellow := f.yellow
  green := f.green
  aqua := f.aqua
  blue := f.blue
  purple := f.purple
  dimRed := f.dimRed
  dimOrange := f.dimOrange
  dimYellow := f.dimYellow
  dimGreen := f.dimGreen
  dimAqua := f.dimAqua
  dimBlue := f.dimBlue
  dimPurple := f.dimPurple
  shadow := b.shadow

/-- Modelled from the spec: `getPalette` (`src/palette.ts`, whose source is
not under `src/`; only its tests and callers are). Following spec 4.1, it is
a pure merge of the background table picked by (variant, contrast) and the
foreground table picked by (variant, paletteOption), the selectors being
read from the configuration for the requested variant. -/
def getPalette (config : Configuration) (variant : Variant) : Palette :=
  let b := match variant with
    | .dark => darkBgTable (variantContrast config .dark)
    | .light => lightBgTable (variantContrast config .light)
  let f := match variant with
    | .dark => darkFgTable (variantPalette config .dark)
    | .light => lightFgTable (variantPalette config .light)
  mergeFamilies b f

/-- The values of the palette at the names of `REQUIRED_PALETTE_COLORS`,
in the order of `constants.ts`. -/
def requiredPaletteColors (p : Palette) : List String :=
  [p.bg0, p.bg1, p.bg, p.bg2, p.bg3, p.bg4, p.bg5, p.bg6, p.bg7, p.bg8, p.bg9,
   p.grey0, p.grey1, p.grey2,
   p.fg0, p.fg, p.fg1,
   p.red, p.orange, p.yellow, p.green, p.aqua, p.blue, p.purple,
   p.dimRed, p.dimOrange, p.dimYellow, p.dimGreen, p.dimAqua, p.dimBlue, p.dimPurple,
   p.shadow]

/-- The seven accent colors of a palette. -/
def accentColors (p : Palette) : List String :=
  [p.red, p.orange, p.yellow, p.green, p.aqua, p.blue, p.purple]

/-- `jsGetProp` on an object receiver never throws and is key lookup. -/
theorem jsGetProp_obj (fields : List (String × JSValue)) (key : String) :
    jsGetProp (.vObj fields) key = .ok ((lookupField fields key).getD .vUndefined) := rfl

/-- `jsGetPropNN` on an object receiver is key lookup. -/
theorem jsGetPropNN_obj (fields : List (String × JSValue)) (key : String) :
    jsGetPropNN (.vObj fields) key = (lookupField fields key).getD .vUndefined := rfl

/-- C4: `isValidHexColor` (and its alias `validateColorFormat`) accepts
exactly the strings made of one `#` followed by 3, 6 or 8 hexadecimal digits
of either case, and rejects every non-string value. -/
theorem isValidHexColor_spec :
    (∀ s : String, isValidHexColor (.vStr s) = true ↔
      ∃ t : String, s = "#" ++ t ∧ (t.length = 3 ∨ t.length = 6 ∨ t.length = 8) ∧
        ∀ c ∈ t.data, (c.isDigit = true ∨ ( 'a' ≤ c ∧ c ≤ 'f' ) ∨ ( 'A' ≤ c ∧ c ≤ 'F' ))) ∧
    (∀ v : JSValue, (∀ u : String, v ≠ .vStr u) → isValidHexColor v = false) ∧
    (∀ v : JSValue, validateColorFormat v = isValidHexColor v) := by
  refine ⟨fun s => ?_, fun v hv => ?_, fun v => rfl⟩
  · obtain ⟨data⟩ := s
    constructor
    · intro h
      cases data with
      | nil => simp [isValidHexColor, hexColorMatches] at h
      | cons c rest =>
        simp only [isValidHexColor, hexColorMatches, Bool.and_eq_true, beq_iff_eq,
          Bool.or_eq_true, List.all_eq_true, isHexDigitCI, Bool.and_eq_true,
          decide_eq_true_eq] at h
        obtain ⟨⟨hc, hlen⟩, hall⟩ := h
        subst hc
        refine ⟨String.mk rest, rfl, ?_, ?_⟩
        · simpa [or_assoc] using hlen
        · intro ch hch
          simpa [or_assoc] using hall ch hch
    · rintro ⟨t, hs, hlen, hall⟩
      obtain ⟨tdata⟩ := t
      have hd : data = '#' :: tdata := congrArg String.data hs
      subst hd
      simp only [isValidHexColor, hexColorMatches, Bool.and_eq_true, beq_iff_eq,
        Bool.or_eq_true, List.all_eq_true, isHexDigitCI, decide_eq_true_eq]
      refine ⟨⟨trivial, ?_⟩, ?_⟩
      · simpa [or_assoc] using hlen
      · intro ch hch
        simpa [or_assoc] using hall ch hch
  · cases v with
    | vStr u => exact absurd rfl (hv u)
    | vUndefined => rfl
    | vNull => rfl
    | vBool b => rfl
    | vNum n => rfl
    | vArr xs => rfl
    | vObj fs => rfl

/-- Witness for C4 at concrete inputs: `#a9b665` is accepted, the number `5`
(a non-string) is rejected. -/
theorem isValidHexColor_spec_witness :
    isValidHexColor (.vStr "#a9b665") = true ∧ isValidHexColor (.vNum 5) = false := by
  constructor
  · exact (isValidHexColor_spec.1 "#a9b665").mpr
      ⟨"a9b665", rfl, by decide, by decide⟩
  · exact isValidHexColor_spec.2.1 (.vNum 5) (fun u h => by cases h)

/-- C6: `createConfiguration` resolves every absent override to its
documented default: with no overrides it returns `CONFIGURATION_DEFAULTS`,
and for each field, leaving it absent yields the documented default and is
indistinguishable from setting it to that default explicitly. -/
theorem createConfiguration_spec :
    createConfiguration emptyOverrides = CONFIGURATION_DEFAULTS ∧
    ∀ o : PartialConfiguration,
      ((createConfiguration { o with darkContrast := none }).darkContrast = Contrast.medium ∧
        createConfiguration { o with darkContrast := none } =
          createConfiguration { o with darkContrast := some Contrast.medium }) ∧
      ((createConfiguration { o with lightContrast := none }).lightContrast = Contrast.medium ∧
        createConfiguration { o with lightContrast := none } =
          createConfiguration { o with lightContrast := some Contrast.medium }) ∧
      ((createConfiguration { o with darkWorkbench := none }).darkWorkbench = "material" ∧
        createConfiguration { o with darkWorkbench := none } =
          createConfiguration { o with darkWorkbench := some "material" }) ∧
      ((createConfiguration { o with lightWorkbench := none }).lightWorkbench = "material" ∧
        createConfiguration { o with lightWorkbench := none } =
          createConfiguration { o with lightWorkbench := some "material" }) ∧
      ((createConfiguration { o with darkCursor := none }).darkCursor = "white" ∧
        createConfiguration { o with darkCursor := none } =
          createConfiguration { o with darkCursor := some "white" }) ∧
      ((createConfiguration { o with lightCursor := none }).lightCursor = "black" ∧
        createConfiguration { o with lightCursor := none } =
          createConfiguration { o with lightCursor := some "black" }) ∧
      ((createConfiguration { o with darkSelection := none }).darkSelection = "grey" ∧
        createConfiguration { o with darkSelection := none } =
          createConfiguration { o with darkSelection := some "grey" }) ∧
      ((createConfiguration { o with lightSelection := none }).lightSelection = "grey" ∧
        createConfiguration { o with lightSelection := none } =
          createConfiguration { o with lightSelection := some "grey" }) ∧
      ((createConfiguration { o with darkPalette := none }).darkPalette = PaletteOption.material ∧
        createConfiguration { o with darkPalette := none } =
          createConfiguration { o with darkPalette := some PaletteOption.material }) ∧
      ((createConfiguration { o with lightPalette := none }).lightPalette = PaletteOption.material ∧
        createConfiguration { o with lightPalette := none } =
          createConfiguration { o with lightPalette := some PaletteOption.material }) ∧
      ((createConfiguration { o with colorfulSyntax := none }).colorfulSyntax = false ∧
        createConfiguration { o with colorfulSyntax := none } =
          createConfiguration { o with colorfulSyntax := some false }) ∧
      ((createConfiguration { o with italicKeywords := none }).italicKeywords = false ∧
        createConfiguration { o with italicKeywords := none } =
          createConfiguration { o with italicKeywords := some false }) ∧
      ((createConfiguration { o with italicComments := none }).italicComments = true ∧
        createConfiguration { o with italicComments := none } =
          createConfiguration { o with italicComments := some true }) ∧
      ((createConfiguration
          { o with diagnosticTextBackgroundOpacity := none }).diagnosticTextBackgroundOpacity = "0%" ∧
        createConfiguration { o with diagnosticTextBackgroundOpacity := none } =
          createConfiguration { o with diagnosticTextBackgroundOpacity := some "0%" }) ∧
      ((createConfiguration { o with highContrast := none }).highContrast = false ∧
        createConfiguration { o with highContrast := none } =
          createConfiguration { o with highContrast := some false }) :=
  ⟨rfl, fun _ =>
    ⟨⟨rfl, rfl⟩, ⟨rfl, rfl⟩, ⟨rfl, rfl⟩, ⟨rfl, rfl⟩, ⟨rfl, rfl⟩, ⟨rfl, rfl⟩, ⟨rfl, rfl⟩,
     ⟨rfl, rfl⟩, ⟨rfl, rfl⟩, ⟨rfl, rfl⟩, ⟨rfl, rfl⟩, ⟨rfl, rfl⟩, ⟨rfl, rfl⟩, ⟨rfl, rfl⟩,
     ⟨rfl, rfl⟩⟩⟩

/-- Executable pairwise-distinctness check on a list of strings. -/
def allDistinct : List String → Bool
  | [] => true
  | x :: xs => !(xs.contains x) && allDistinct xs

/-- A list passing `allDistinct` has no duplicates. -/
theorem allDistinct_nodup : ∀ l : List String, allDistinct l = true → l.Nodup := by
  intro l
  induction l with
  | nil => intro h; exact List.nodup_nil
  | cons x xs ih =>
    intro h
    simp only [allDistinct, Bool.and_eq_true] at h
    obtain ⟨h1, h2⟩ := h
    refine List.nodup_cons.mpr ⟨?_, ih h2⟩
    intro hmem
    have hc : xs.contains x = true := List.elem_eq_true_of_mem hmem
    rw [hc] at h1
    exact Bool.noConfusion h1

/-- C7: for every configuration and variant (hence every (variant, contrast,
paletteOption) triple), the resolved palette has all required colors in valid
hex format and its seven accent colors are pairwise distinct. -/
theorem getPalette_spec : ∀ (config : Configuration) (variant : Variant),
    ((requiredPaletteColors (getPalette config variant)).all hexColorMatches = true) ∧
    (accentColors (getPalette config variant)).Nodup := by
  intro config variant
  obtain ⟨dc, lc, dw, lw, dcu, lcu, dse, lse, dp, lp, cs, ik, ic, dop, hc⟩ := config
  cases variant with
  | dark => cases dc <;> cases dp <;> exact ⟨rfl, allDistinct_nodup _ rfl⟩
  | light => cases lc <;> cases lp <;> exact ⟨rfl, allDistinct_nodup _ rfl⟩

/-- For `validateThemeStructure`, validity is exactly emptiness of the error
list. -/
theorem structure_isValid_iff (theme : JSValue) :
    (validateThemeStructure theme).isValid = true ↔
      (validateThemeStructure theme).errors = [] := by
  unfold validateThemeStructure
  cases objFields theme with
  | none => simp
  | some fields => simp [List.isEmpty_iff]

/-- For `validateThemeColors`, validity of a returned result is exactly
emptiness of its error list. -/
theorem colors_isValid_iff (theme : JSValue) (r : ThemeValidationResult)
    (h : validateThemeColors theme = .ok r) :
    r.isValid = true ↔ r.errors = [] := by
  simp only [validateThemeColors] at h
  split at h
  · exact absurd h (by simp)
  · split at h
    · exact absurd h (by simp)
    · split at h
      · exact absurd h (by simp)
      · injection h with h2
        subst h2
        simp [List.isEmpty_iff]

/-- For `validateCompleteTheme`, validity of a returned result is exactly
emptiness of its error list. -/
theorem complete_isValid_iff (theme : JSValue) (v : Variant) (r : ThemeValidationResult)
    (h : validateCompleteTheme theme v = .ok r) :
    r.isValid = true ↔ r.errors = [] := by
  simp only [validateCompleteTheme] at h
  split at h
  case isTrue hcond =>
    injection h with h2
    subst h2
    simp only []
    constructor
    · intro hx; exact absurd hx (by simp)
    · intro hx
      have := (structure_isValid_iff theme).mpr hx
      rw [this] at hcond
      exact absurd hcond (by simp)
  case isFalse hcond =>
    split at h
    · exact absurd h (by simp)
    · split at h
      · exact absurd h (by simp)
      · split at h
        · exact absurd h (by simp)
        · injection h with h2
          subst h2
          simp [List.isEmpty_iff]

/-- C2: for each of the three validators, any returned `ValidationResult`
has `isValid = true` exactly when its error list is empty; warnings play no
role in validity. -/
theorem validators_isValid_iff_no_errors :
    (∀ theme : JSValue,
      (validateThemeStructure theme).isValid = true ↔
        (validateThemeStructure theme).errors = []) ∧
    (∀ (theme : JSValue) (r : ThemeValidationResult),
      validateThemeColors theme = .ok r → (r.isValid = true ↔ r.errors = [])) ∧
    (∀ (theme : JSValue) (v : Variant) (r : ThemeValidationResult),
      validateCompleteTheme theme v = .ok r → (r.isValid = true ↔ r.errors = [])) :=
  ⟨structure_isValid_iff, colors_isValid_iff, complete_isValid_iff⟩

/-- A well-formed dark theme document used as a concrete test vector. -/
def sampleDarkTheme : JSValue := .vObj [
  ("name", .vStr "Gruvbox Material Dark"),
  ("type", .vStr "dark"),
  ("semanticHighlighting", .vBool true),
  ("semanticTokenColors", .vObj [("variable", .vStr "#d4be98")]),
  ("colors", .vObj [("editor.background", .vStr "#282828")]),
  ("tokenColors", .vArr [.vObj [("name", .vStr "Keyword"), ("scope", .vStr "keyword"),
    ("settings", .vObj [("foreground", .vStr "#ea6962")])]])]

/-- Witness for C2 at concrete inputs. -/
theorem validators_isValid_iff_no_errors_witness :
    ((validateThemeStructure sampleDarkTheme).isValid = true ↔
      (validateThemeStructure sampleDarkTheme).errors = []) ∧
    (({ isValid := true, errors := [], warnings := [] } : ThemeValidationResult).isValid = true ↔
      ({ isValid := true, errors := [], warnings := [] } : ThemeValidationResult).errors = []) ∧
    (({ isValid := true, errors := [], warnings := [] } : ThemeValidationResult).isValid = true ↔
      ({ isValid := true, errors := [], warnings := [] } : ThemeValidationResult).errors = []) :=
  ⟨validators_isValid_iff_no_errors.1 sampleDarkTheme,
   validators_isValid_iff_no_errors.2.1 sampleDarkTheme
     { isValid := true, errors := [], warnings := [] } rfl,
   validators_isValid_iff_no_errors.2.2 sampleDarkTheme .dark
     { isValid := true, errors := [], warnings := [] } rfl⟩

/-- C1: `validateCompleteTheme` returns exactly the structural result (as
invalid) when the structural check fails, performing no further checks; when
it passes, the result appends the color-check errors, a type-mismatch error
when `type` differs from the expected variant, and only a warning (never an
error) when the name check fails. -/
theorem complete_gating (theme : JSValue) (v : Variant) :
    ((validateThemeStructure theme).isValid = false →
      validateCompleteTheme theme v =
        .ok { isValid := false, errors := (validateThemeStructure theme).errors,
              warnings := (validateThemeStructure theme).warnings }) ∧
    ((validateThemeStructure theme).isValid = true →
      ∀ (colorResult : ThemeValidationResult) (nameOk : Bool) (typeV : JSValue),
        validateThemeColors theme = .ok colorResult →
        validateThemeName theme v = .ok nameOk →
        jsGetProp theme "type" = .ok typeV →
        validateCompleteTheme theme v =
          .ok { isValid :=
                  ((validateThemeStructure theme).errors ++ colorResult.errors ++
                    (if jsEqStr typeV (variantStr v) then []
                     else [typeMismatchMsg typeV v])).isEmpty,
                errors :=
                  (validateThemeStructure theme).errors ++ colorResult.errors ++
                    (if jsEqStr typeV (variantStr v) then [] else [typeMismatchMsg typeV v]),
                warnings :=
                  (validateThemeStructure theme).warnings ++ colorResult.warnings ++
                    (if nameOk then [] else [nameWarningMsg theme v]) }) := by
  constructor
  · intro h
    simp [validateCompleteTheme, h]
  · intro h colorResult nameOk typeV hcr hname htype
    simp only [validateCompleteTheme, h, hcr, hname, htype]
    simp [List.append_assoc]

/-- Witness for C1: the structural short-circuit on a null document, and the
full path on a well-formed dark document validated against the light
variant (color check clean, name mismatch becomes a warning, type mismatch
becomes an error). -/
theorem complete_gating_witness :
    validateCompleteTheme .vNull .dark =
      .ok { isValid := false, errors := [nonObjectRootMsg], warnings := [] } ∧
    validateCompleteTheme sampleDarkTheme .light =
      .ok { isValid := false,
            errors := [typeMismatchMsg (.vStr "dark") .light],
            warnings := [nameWarningMsg sampleDarkTheme .light] } :=
  ⟨(complete_gating .vNull .dark).1 rfl,
   (complete_gating sampleDarkTheme .light).2 rfl
     { isValid := true, errors := [], warnings := [] } false (.vStr "dark") rfl rfl rfl⟩

/-- The missing-property errors the claim predicts: one per required
property absent from the document. -/
def missingErrsSpec (fields : List (String × JSValue)) : List String :=
  (REQUIRED_THEME_PROPERTIES.filter (fun p => (lookupField fields p).isNone)).map missingPropMsg

/-- The `type` error the claim predicts: present and neither the string
"dark" nor the string "light". -/
def typeErrsSpec (fields : List (String × JSValue)) : List String :=
  match lookupField fields "type" with
  | none => []
  | some t => if jsEqStr t "dark" || jsEqStr t "light" then [] else [invalidTypeMsg t]

/-- The `semanticHighlighting` error the claim predicts: present and not a
boolean. -/
def shErrsSpec (fields : List (String × JSValue)) : List String :=
  match lookupField fields "semanticHighlighting" with
  | none => []
  | some v => if jsTypeof v == "boolean" then [] else [invalidSemanticHighlightingMsg v]

/-- The `colors` error the claim predicts: present and null, an array, or
not an object. -/
def colorsErrsSpec (fields : List (String × JSValue)) : List String :=
  match lookupField fields "colors" with
  | none => []
  | some (.vObj _) => []
  | some _ => [invalidColorsMsg]

/-- The `tokenColors` error the claim predicts: present and not an array. -/
def tokenColorsErrsSpec (fields : List (String × JSValue)) : List String :=
  match lookupField fields "tokenColors" with
  | none => []
  | some (.vArr _) => []
  | some _ => [invalidTokenColorsMsg]

/-- The `semanticTokenColors` error the claim predicts: present and null, an
array, or not an object. -/
def stcErrsSpec (fields : List (String × JSValue)) : List String :=
  match lookupField fields "semanticTokenColors" with
  | none => []
  | some (.vObj _) => []
  | some _ => [invalidSemanticTokenColorsMsg]

/-- Accumulating a conditional message per element is appending the filtered
message list. -/
theorem foldl_push_filter (l : List String) (pred : String → Bool) (msg : String → String) :
    ∀ acc : List String,
      l.foldl (fun a p => if pred p then a else a ++ [msg p]) acc
        = acc ++ (l.filter (fun p => !pred p)).map msg := by
  induction l with
  | nil => intro acc; simp
  | cons x xs ih =>
    intro acc
    simp only [List.foldl_cons, List.filter_cons]
    by_cases hx : pred x
    · simp [hx, ih acc]
    · simp [hx, ih (acc ++ [msg x])]

/-- The required-properties loop appends exactly the predicted messages. -/
theorem missingPart_eq (fields : List (String × JSValue)) (errs : List String) :
    missingPart fields errs = errs ++ missingErrsSpec fields := by
  unfold missingPart missingErrsSpec
  rw [foldl_push_filter]
  refine congrArg (errs ++ List.map missingPropMsg ·) (List.filter_congr ?_)
  intro p _
  unfold jsIn
  cases lookupField fields p <;> rfl

/-- The `type` check appends exactly the predicted message. -/
theorem typePart_eq (fields : List (String × JSValue)) (errs : List String) :
    typePart fields errs = errs ++ typeErrsSpec fields := by
  unfold typePart typeErrsSpec
  cases lookupField fields "type" with
  | none => simp
  | some t => by_cases h1 : jsEqStr t "dark" <;> by_cases h2 : jsEqStr t "light" <;> simp [h1, h2]

/-- The `semanticHighlighting` check appends exactly the predicted message. -/
theorem shPart_eq (fields : List (String × JSValue)) (errs : List String) :
    shPart fields errs = errs ++ shErrsSpec fields := by
  unfold shPart shErrsSpec
  cases lookupField fields "semanticHighlighting" with
  | none => simp
  | some v => by_cases h : jsTypeof v == "boolean" <;> simp [h]

/-- The `colors` check appends exactly the predicted message. -/
theorem colorsPart_eq (fields : List (String × JSValue)) (errs : List String) :
    colorsPart fields errs = errs ++ colorsErrsSpec fields := by
  unfold colorsPart colorsErrsSpec
  cases lookupField fields "colors" with
  | none => simp
  | some c => cases c <;> simp [jsTypeof, jsIsArray]

/-- The `tokenColors` check appends exactly the predicted message. -/
theorem tokenColorsPart_eq (fields : List (String × JSValue)) (errs : List String) :
    tokenColorsPart fields errs = errs ++ tokenColorsErrsSpec fields := by
  unfold tokenColorsPart tokenColorsErrsSpec
  cases lookupField fields "tokenColors" with
  | none => simp
  | some t => cases t <;> simp [jsIsArray]

/-- The `semanticTokenColors` check appends exactly the predicted message. -/
theorem stcPart_eq (fields : List (String × JSValue)) (errs : List String) :
    stcPart fields errs = errs ++ stcErrsSpec fields := by
  unfold stcPart stcErrsSpec
  cases lookupField fields "semanticTokenColors" with
  | none => simp
  | some c => cases c <;> simp [jsTypeof, jsIsArray]

/-- The sequential error accumulation of `validateThemeStructure` is the
concatenation of the six independent check results. -/
theorem structureChecks_eq (fields : List (String × JSValue)) :
    structureChecks fields =
      missingErrsSpec fields ++ typeErrsSpec fields ++ shErrsSpec fields ++
        colorsErrsSpec fields ++ tokenColorsErrsSpec fields ++ stcErrsSpec fields := by
  unfold structureChecks
  rw [missingPart_eq, typePart_eq, shPart_eq, colorsPart_eq, tokenColorsPart_eq, stcPart_eq]
  simp [List.append_assoc]

/-- The `colors`-entry errors the claim predicts: one per entry whose value
fails the hex check, naming the key. -/
def colorEntryErrsSpec (entries : List (String × JSValue)) : List String :=
  entries.filterMap
    (fun kv => if isValidHexColor kv.2 then none else some (colorEntryMsg kv.1 kv.2))

/-- The token-rule errors of the amended claim: one per rule whose
`settings.foreground` is truthy yet fails the hex check, naming the rule by
its truthy name or its index. -/
def ruleErrsSpec : List JSValue → Nat → List String
  | [], _ => []
  | rule :: rest, index =>
    (let fg := jsOptChain (jsGetPropNN rule "settings") "foreground"
     if jsTruthy fg && !(isValidHexColor fg) then [foregroundMsg rule index fg] else [])
    ++ ruleErrsSpec rest (index + 1)

/-- On rules that are not nullish the `forEach` loop never throws and
produces exactly the predicted errors. -/
theorem tokenColorsLoop_eq (rules : List JSValue)
    (h : ∀ r ∈ rules, r ≠ .vNull ∧ r ≠ .vUndefined) :
    ∀ index, tokenColorsLoop rules index = .ok (ruleErrsSpec rules index) := by
  induction rules with
  | nil => intro index; rfl
  | cons r rest ih =>
    intro index
    have hr := h r (List.mem_cons_self r rest)
    have hrest : ∀ x ∈ rest, x ≠ .vNull ∧ x ≠ .vUndefined :=
      fun x hx => h x (List.mem_cons_of_mem r hx)
    have hget : jsGetProp r "settings" = .ok (jsGetPropNN r "settings") := by
      cases r with
      | vNull => exact absurd rfl hr.1
      | vUndefined => exact absurd rfl hr.2
      | vBool b => rfl
      | vNum n => rfl
      | vStr s => rfl
      | vArr xs => rfl
      | vObj fs => rfl
    simp only [tokenColorsLoop, hget, ih hrest, ruleErrsSpec]

/-- C5 (amended): on a document whose `colors` is an object and whose
`tokenColors` is an array of non-nullish rules, `validateThemeColors`
reports exactly one error per invalid `colors` entry (naming the key) and
one error per rule whose `settings.foreground` is truthy but not a valid
hex color (naming the rule or its index); a falsy foreground — the empty
string in particular — is skipped. -/
theorem validateThemeColors_amended :
    ∀ (fields entries : List (String × JSValue)) (rules : List JSValue),
    lookupField fields "colors" = some (.vObj entries) →
    lookupField fields "tokenColors" = some (.vArr rules) →
    (∀ r ∈ rules, r ≠ .vNull ∧ r ≠ .vUndefined) →
    validateThemeColors (.vObj fields) =
      .ok { isValid := (colorEntryErrsSpec entries ++ ruleErrsSpec rules 0).isEmpty,
            errors := colorEntryErrsSpec entries ++ ruleErrsSpec rules 0,
            warnings := [] } := by
  intro fields entries rules hc ht hr
  simp only [validateThemeColors, jsGetProp_obj, hc, ht, Option.getD_some]
  rw [tokenColorsLoop_eq rules hr 0]
  simp [jsTruthy, jsEntries, colorEntryErrsSpec]

/-- A token color rule whose `settings.foreground` is present but is the
empty string — not a valid hex color. -/
def emptyForegroundRule : JSValue :=
  .vObj [("name", .vStr "Broken"), ("scope", .vStr "comment"),
         ("settings", .vObj [("foreground", .vStr "")])]

/-- A theme whose only token color rule carries the empty foreground. -/
def emptyForegroundTheme : JSValue :=
  .vObj [("colors", .vObj []), ("tokenColors", .vArr [emptyForegroundRule])]

/-- Counterexample to C5 as stated: the rule's `settings.foreground` is
present (the empty string) and is not a valid hex color, yet
`validateThemeColors` reports no error at all — JavaScript truthiness
filters the empty string out before the hex check. -/
theorem foreground_empty_counterexample :
    jsOptChain (jsGetPropNN emptyForegroundRule "settings") "foreground" = .vStr "" ∧
    isValidHexColor (.vStr "") = false ∧
    validateThemeColors emptyForegroundTheme =
      .ok { isValid := true, errors := [], warnings := [] } :=
  ⟨rfl, rfl, rfl⟩

/-- Witness for the amended C5, at the empty-foreground document. -/
theorem validateThemeColors_amended_witness :
    validateThemeColors emptyForegroundTheme =
      .ok { isValid := (colorEntryErrsSpec [] ++ ruleErrsSpec [emptyForegroundRule] 0).isEmpty,
            errors := colorEntryErrsSpec [] ++ ruleErrsSpec [emptyForegroundRule] 0,
            warnings := [] } :=
  validateThemeColors_amended _ [] [emptyForegroundRule] rfl rfl
    (by
      intro r hrm
      rw [List.mem_singleton] at hrm
      subst hrm
      exact ⟨fun hx => JSValue.noConfusion hx, fun hx => JSValue.noConfusion hx⟩)

/-- C8: two documents that agree on the six required top-level properties
(in presence and value) receive identical results from both
`validateThemeStructure` and `validateCompleteTheme`; extra top-level
fields are never consulted. -/
theorem extra_fields_irrelevant :
    ∀ (fs1 fs2 : List (String × JSValue)) (v : Variant),
    (∀ p ∈ REQUIRED_THEME_PROPERTIES, lookupField fs1 p = lookupField fs2 p) →
    validateThemeStructure (.vObj fs1) = validateThemeStructure (.vObj fs2) ∧
    validateCompleteTheme (.vObj fs1) v = validateCompleteTheme (.vObj fs2) v := by
  intro fs1 fs2 v hAgree
  have hn := hAgree "name" (by simp [REQUIRED_THEME_PROPERTIES])
  have hty := hAgree "type" (by simp [REQUIRED_THEME_PROPERTIES])
  have hsh := hAgree "semanticHighlighting" (by simp [REQUIRED_THEME_PROPERTIES])
  have hstc := hAgree "semanticTokenColors" (by simp [REQUIRED_THEME_PROPERTIES])
  have hco := hAgree "colors" (by simp [REQUIRED_THEME_PROPERTIES])
  have htc := hAgree "tokenColors" (by simp [REQUIRED_THEME_PROPERTIES])
  have hmiss : missingErrsSpec fs1 = missingErrsSpec fs2 := by
    unfold missingErrsSpec
    refine congrArg (List.map missingPropMsg) (List.filter_congr ?_)
    intro p hp
    rw [hAgree p hp]
  have hchecks : structureChecks fs1 = structureChecks fs2 := by
    rw [structureChecks_eq, structureChecks_eq, hmiss]
    unfold typeErrsSpec shErrsSpec colorsErrsSpec tokenColorsErrsSpec stcErrsSpec
    rw [hty, hsh, hco, htc, hstc]
  have hstruct : validateThemeStructure (.vObj fs1) = validateThemeStructure (.vObj fs2) := by
    simp only [validateThemeStructure, objFields, hchecks]
  have hcolors : validateThemeColors (.vObj fs1) = validateThemeColors (.vObj fs2) := by
    simp only [validateThemeColors, jsGetProp_obj, hco, htc]
  have hname : validateThemeName (.vObj fs1) v = validateThemeName (.vObj fs2) v := by
    simp only [validateThemeName, jsGetProp_obj, hn]
  refine ⟨hstruct, ?_⟩
  simp only [validateCompleteTheme, hstruct, hcolors, hname, nameWarningMsg,
    jsGetPropNN_obj, jsGetProp_obj, hn, hty]

/-- The six required fields of the sample document, without and with an
extra top-level field. -/
def extraFieldBase : List (String × JSValue) :=
  [("name", .vStr "Gruvbox Material Dark"), ("type", .vStr "dark"),
   ("semanticHighlighting", .vBool true), ("semanticTokenColors", .vObj []),
   ("colors", .vObj [("editor.background", .vStr "#282828")]), ("tokenColors", .vArr [])]

/-- The same document extended with two undocumented top-level fields. -/
def extraFieldExtended : List (String × JSValue) :=
  extraFieldBase ++ [("author", .vStr "someone"), ("version", .vNum 3)]

/-- Witness for C8: adding extra top-level fields leaves both validators'
results unchanged. -/
theorem extra_fields_irrelevant_witness :
    validateThemeStructure (.vObj extraFieldBase) =
      validateThemeStructure (.vObj extraFieldExtended) ∧
    validateCompleteTheme (.vObj extraFieldBase) .dark =
      validateCompleteTheme (.vObj extraFieldExtended) .dark :=
  extra_fields_irrelevant extraFieldBase extraFieldExtended .dark
    (by
      intro p hp
      simp only [REQUIRED_THEME_PROPERTIES, List.mem_cons, List.not_mem_nil, or_false] at hp
      rcases hp with rfl | rfl | rfl | rfl | rfl | rfl <;> rfl)

/-- C10: a document whose `name` is present but not a string, with the other
five required fields well-formed and matching the expected variant, passes
the structural check with no error, and complete validation reports only
the name-mismatch warning — never an error — so the document is valid. -/
theorem nonstring_name_ok :
    ∀ (fields : List (String × JSValue)) (v : Variant) (n : JSValue) (b : Bool)
      (cs stc : List (String × JSValue)) (rules : List JSValue),
    lookupField fields "name" = some n →
    jsTypeof n ≠ "string" →
    lookupField fields "type" = some (.vStr (variantStr v)) →
    lookupField fields "semanticHighlighting" = some (.vBool b) →
    lookupField fields "colors" = some (.vObj cs) →
    lookupField fields "semanticTokenColors" = some (.vObj stc) →
    lookupField fields "tokenColors" = some (.vArr rules) →
    (∀ kv ∈ cs, isValidHexColor kv.2 = true) →
    (∀ r ∈ rules, r ≠ .vNull ∧ r ≠ .vUndefined) →
    ruleErrsSpec rules 0 = [] →
    validateThemeStructure (.vObj fields) =
      { isValid := true, errors := [], warnings := [] } ∧
    validateCompleteTheme (.vObj fields) v =
      .ok { isValid := true, errors := [],
            warnings := [nameWarningMsg (.vObj fields) v] } := by
  intro fields v n b cs stc rules hn hns hty hsh hco hstc htc hcs hrules hrerr
  have hchecks : structureChecks fields = [] := by
    rw [structureChecks_eq]
    have hmiss : (REQUIRED_THEME_PROPERTIES.filter
        (fun p => (lookupField fields p).isNone)) = [] := by
      simp [REQUIRED_THEME_PROPERTIES, List.filter, hn, hty, hsh, hstc, hco, htc]
    unfold missingErrsSpec typeErrsSpec shErrsSpec colorsErrsSpec tokenColorsErrsSpec stcErrsSpec
    rw [hmiss, hty, hsh, hco, htc, hstc]
    cases v <;> simp [jsEqStr, variantStr, jsTypeof]
  have hstruct : validateThemeStructure (.vObj fields) =
      { isValid := true, errors := [], warnings := [] } := by
    simp [validateThemeStructure, objFields, hchecks]
  have hfm : cs.filterMap
      (fun kv => if isValidHexColor kv.2 then none else some (colorEntryMsg kv.1 kv.2)) = [] :=
    List.filterMap_eq_nil_iff.mpr (fun kv hkv => by simp [hcs kv hkv])
  have hcolors : validateThemeColors (.vObj fields) =
      .ok { isValid := true, errors := [], warnings := [] } := by
    simp only [validateThemeColors, jsGetProp_obj, hco, htc, Option.getD_some]
    rw [tokenColorsLoop_eq rules hrules 0, hrerr]
    simp [jsTruthy, jsEntries, hfm]
  have hnameok : validateThemeName (.vObj fields) v = .ok false := by
    simp only [validateThemeName, jsGetProp_obj, hn, Option.getD_some]
    cases n with
    | vStr s => exact absurd rfl hns
    | vUndefined => rfl
    | vNull => rfl
    | vBool b2 => rfl
    | vNum n2 => rfl
    | vArr xs => rfl
    | vObj fs => rfl
  refine ⟨hstruct, ?_⟩
  simp only [validateCompleteTheme, hstruct, hcolors, hnameok, jsGetProp_obj, hty,
    Option.getD_some]
  simp [jsEqStr]

/-- A well-formed dark document whose `name` is the number 42. -/
def numericNameFields : List (String × JSValue) :=
  [("name", .vNum 42), ("type", .vStr "dark"), ("semanticHighlighting", .vBool true),
   ("semanticTokenColors", .vObj []),
   ("colors", .vObj [("editor.background", .vStr "#282828")]), ("tokenColors", .vArr [])]

/-- Witness for C10 at the numeric-name document. -/
theorem nonstring_name_ok_witness :
    validateThemeStructure (.vObj numericNameFields) =
      { isValid := true, errors := [], warnings := [] } ∧
    validateCompleteTheme (.vObj numericNameFields) .dark =
      .ok { isValid := true, errors := [],
            warnings := [nameWarningMsg (.vObj numericNameFields) .dark] } :=
  nonstring_name_ok numericNameFields .dark (.vNum 42) true
    [("editor.background", .vStr "#282828")] [] []
    rfl (by decide) rfl rfl rfl rfl rfl
    (by
      intro kv hkv
      simp only [List.mem_singleton] at hkv
      subst hkv
      rfl)
    (by intro r hrm; exact absurd hrm (List.not_mem_nil r))
    rfl
